import Mathlib

/-!
Shallow embedding of `NewsApp/src/main.rs` (a two-thread news reader:
a background Poller thread fetching headlines and an egui View thread
rendering them, connected by two mpsc channels), together with theorems
checking the specification's claims against it.
-/

namespace NewsApp

/-- Embeds `enum Categories` (main.rs lines 23-32): seven fixed news
categories, in declaration order. -/
inductive Categories
  | Business
  | Entertainment
  | General
  | Health
  | Science
  | Sports
  | Technology
deriving DecidableEq, Fintype, Repr

/-- Embeds `enum_iterator::all::<Categories>()`: iteration in declaration
order, as derived by `#[derive(Sequence)]`. -/
def allCategories : List Categories :=
  [Categories.Business, Categories.Entertainment, Categories.General,
   Categories.Health, Categories.Science, Categories.Sports,
   Categories.Technology]

/-- Embeds `Categories::to_string` (main.rs lines 34-46). -/
def catToString : Categories → String
  | Categories.Business => "Business"
  | Categories.Entertainment => "Entertainment"
  | Categories.General => "General"
  | Categories.Health => "Health"
  | Categories.Science => "Science"
  | Categories.Sports => "Sports"
  | Categories.Technology => "Technology"

/-- Embeds `struct NewsReportConfig` (main.rs lines 6-10). -/
structure NewsReportConfig where
  selected_categories : List String
  polling_interval : Nat
deriving DecidableEq, Repr

/-- Embeds `struct Article` (main.rs lines 17-21). -/
structure Article where
  title : String
  url : String
deriving DecidableEq, Repr

/-- Embeds `struct Articles` (main.rs lines 12-15): one fetched batch. -/
structure Articles where
  articles : List Article
deriving DecidableEq, Repr

/-- Error taxonomy of one fetch: the `panic!` on a missing `NEWS_API_KEY`
(main.rs line 53), a transport failure of `ureq::get(..).call()?` or
`into_string()?` (line 64), and a `serde_json::from_str` decode failure
(line 65). -/
inductive FetchError
  | missingKey
  | transport
  | decode
deriving DecidableEq, Repr

/-- Embeds the query-fragment loop of `get_articles` (main.rs lines 56-61):
one `&category=<name>` fragment per entry of the passed category list, in
order. -/
def categoryQueryFragments (cats : List String) : List String :=
  cats.map (fun c => "&category=" ++ c)

/-- Embeds the `query_addr` format string of `get_articles` (main.rs
line 63): fixed endpoint and country code, the category fragments, then
the credential. -/
def query_addr (cats : List String) (api_key : String) : String :=
  "https://newsapi.org/v2/top-headlines?country=gb"
    ++ String.join (categoryQueryFragments cats)
    ++ "&apiKey=" ++ api_key

/-- Embeds `get_articles` (main.rs lines 49-67). The environment lookup of
`NEWS_API_KEY` is the `envKey` argument (`none` = absent, which the source
turns into a `panic!`, modelled as a fatal error); the HTTP transport and
the JSON decoder are abstract arguments, as they are external
collaborators. -/
def get_articles (envKey : Option String)
    (http : String → Except FetchError String)
    (decodeJson : String → Except FetchError Articles)
    (list_of_desired_categories : List String) : Except FetchError Articles :=
  match envKey with
  | none => Except.error FetchError.missingKey
  | some api_key =>
    match http (query_addr list_of_desired_categories api_key) with
    | Except.error e => Except.error e
    | Except.ok body => decodeJson body

/-! ## The View's per-frame batch application (NewsReports::update) -/

/-- Embeds the `try_recv` half of `NewsReports::update` (main.rs lines
87-92): given the displayed list and the result of one non-blocking
receive, a received batch replaces the displayed list wholesale, otherwise
the previous list is kept. -/
def viewFrame (displayed : List Article) (recv : Option Articles) : List Article :=
  match recv with
  | some articles => articles.articles
  | none => displayed

/-- An mpsc channel's pending queue, oldest first; `try_recv` takes the
head. Embeds the `std::sync::mpsc` FIFO semantics used at main.rs line 87. -/
def tryRecv (q : List Articles) : Option Articles × List Articles :=
  (q.head?, q.tail)

/-- One render frame of the View against the pending batch queue: exactly
one `try_recv` per frame (main.rs lines 87-92). -/
def viewFrameQ (displayed : List Article) (q : List Articles) :
    List Article × List Articles :=
  (viewFrame displayed (tryRecv q).1, (tryRecv q).2)

/-- Iterated render frames with no new batches arriving. -/
def viewFramesN (displayed : List Article) (q : List Articles) :
    Nat → List Article × List Articles
  | 0 => (displayed, q)
  | n + 1 => viewFramesN (viewFrameQ displayed q).1 (viewFrameQ displayed q).2 n

/-- The displayed list after n frames, given which batch (if any) each
frame's `try_recv` returned; the View starts with `list_of_articles:
vec![]` (main.rs line 202). -/
def displayedAfter (recvs : Nat → Option Articles) : Nat → List Article
  | 0 => []
  | n + 1 => viewFrame (displayedAfter recvs n) (recvs n)

/-- The most recently received batch strictly before frame n. -/
def lastReceived (recvs : Nat → Option Articles) : Nat → Option Articles
  | 0 => none
  | n + 1 =>
    match recvs n with
    | some a => some a
    | none => lastReceived recvs n

/-! ## The settings menu (show_menu) -/

/-- Embeds the slider widget `egui::Slider::new(.., 60..=3600)` (main.rs
line 132): the widget clamps the requested value to its range. -/
def clampInterval (v : Nat) : Nat := max 60 (min v 3600)

/-- The View's settings state: `category_flag : [bool; 7]` indexed in
enum declaration order, modelled as a function on the enum, and
`polling_interval` (main.rs lines 72-78). -/
structure ViewMenuState where
  category_flag : Categories → Bool
  polling_interval : Nat

/-- Embeds the config-building loop of `show_menu` (main.rs lines
140-151): iterate `all::<Categories>()` in declaration order, pushing each
category's name when its flag is set. -/
def deriveSelected (flag : Categories → Bool) : List String :=
  (allCategories.filter (fun c => flag c)).map catToString

/-- Embeds the checkbox rendering order of `show_menu` (main.rs lines
117-122): one checkbox per category, labelled `category.to_string()`,
iterated in `all::<Categories>()` order. -/
def renderedToggleLabels : List String := allCategories.map catToString

/-- Embeds one settings interaction of `show_menu` (main.rs lines
106-159). `newFlags` is the checkbox state after the user's clicks (equal
to the current flags when the Categories submenu is closed or untouched);
`requested` is the raw slider request, clamped by the widget to
`60..=3600`. The flags and interval are updated only when they differ
from the current state, `is_update_required` is the disjunction of the two
change tests, and when it is set a full `NewsReportConfig` is built from
the (updated) flags and interval and sent. -/
def show_menu (s : ViewMenuState) (newFlags : Categories → Bool)
    (requested : Nat) : ViewMenuState × Option NewsReportConfig :=
  let slider := clampInterval requested
  let flags2 := if newFlags = s.category_flag then s.category_flag else newFlags
  let int2 := if slider = s.polling_interval then s.polling_interval else slider
  let is_update_required :=
    (if newFlags = s.category_flag then false else true)
      || (if slider = s.polling_interval then false else true)
  if is_update_required then
    (⟨flags2, int2⟩, some ⟨deriveSelected flags2, int2⟩)
  else
    (⟨flags2, int2⟩, none)

/-- Embeds the View's hardcoded startup state (main.rs lines 197-203):
all seven category flags true, polling interval 600. -/
def viewInitState : ViewMenuState := ⟨fun _ => true, 600⟩

/-- The View's settings state after n interactions, each given by the
user's proposed checkbox flags and raw slider request. -/
def menuStateAt (us : Nat → (Categories → Bool) × Nat) :
    Nat → ViewMenuState
  | 0 => viewInitState
  | n + 1 => (show_menu (menuStateAt us n) (us n).1 (us n).2).1

/-- The Configuration (if any) sent by interaction n. -/
def menuSentAt (us : Nat → (Categories → Bool) × Nat) (n : Nat) :
    Option NewsReportConfig :=
  (show_menu (menuStateAt us n) (us n).1 (us n).2).2

/-! ## The Poller loop (main.rs lines 166-187) -/

/-- Embeds the Poller's starting configuration `default_news_config`
(main.rs lines 168-171): empty category list, 1-second interval. -/
def pollerInitConfig : NewsReportConfig := ⟨[], 1⟩

/-- The Poller thread is either still looping with a current config, or
terminated by a panic (the `unwrap` of a failed fetch). -/
inductive PollerState
  | running (cfg : NewsReportConfig)
  | dead
deriving DecidableEq, Repr

/-- Embeds the Poller's non-blocking Configuration check (main.rs lines
174-179): a received Configuration replaces the current one wholesale (no
merge, interval included), otherwise the current one is kept. -/
def recvConfig (cfg : NewsReportConfig) (incoming : Option NewsReportConfig) :
    NewsReportConfig :=
  match incoming with
  | some received => received
  | none => cfg

/-- Embeds one iteration of the Poller loop (main.rs lines 173-186):
(a) non-blocking `try_recv` of a Configuration, replacing the current one
wholesale when present; (b) fetch with the current selected-category list;
(c) `articles.unwrap()` - an error panics the thread (no send, no sleep),
a success is sent to the View; (d) sleep for the current configured
interval. Returns (thread state, sent batch, sleep seconds). -/
def pollerCycle (cfg : NewsReportConfig) (incoming : Option NewsReportConfig)
    (fetch : List String → Except FetchError Articles) :
    PollerState × Option Articles × Option Nat :=
  match fetch (recvConfig cfg incoming).selected_categories with
  | Except.ok a =>
    (PollerState.running (recvConfig cfg incoming), some a,
     some (recvConfig cfg incoming).polling_interval)
  | Except.error _ => (PollerState.dead, none, none)

/-- Poller thread state after n loop iterations, given the stream of
incoming Configurations and the fetch behaviour. -/
def pollerStateAfter (inputs : Nat → Option NewsReportConfig)
    (fetch : List String → Except FetchError Articles) : Nat → PollerState
  | 0 => PollerState.running pollerInitConfig
  | n + 1 =>
    match pollerStateAfter inputs fetch n with
    | PollerState.dead => PollerState.dead
    | PollerState.running cfg => (pollerCycle cfg (inputs n) fetch).1

/-- The batch sent to the View by iteration n (none if the thread already
died or the fetch failed). -/
def pollerSentAt (inputs : Nat → Option NewsReportConfig)
    (fetch : List String → Except FetchError Articles) (n : Nat) :
    Option Articles :=
  match pollerStateAfter inputs fetch n with
  | PollerState.dead => none
  | PollerState.running cfg => (pollerCycle cfg (inputs n) fetch).2.1

/-- The sleep performed by iteration n (none if the thread panicked). -/
def pollerSleepAt (inputs : Nat → Option NewsReportConfig)
    (fetch : List String → Except FetchError Articles) (n : Nat) :
    Option Nat :=
  match pollerStateAfter inputs fetch n with
  | PollerState.dead => none
  | PollerState.running cfg => (pollerCycle cfg (inputs n) fetch).2.2

/-- The configuration the Poller uses during iteration n: the incoming one
when present (full replacement, no merge), otherwise the previous one,
starting from `pollerInitConfig`. -/
def configAt (inputs : Nat → Option NewsReportConfig) : Nat → NewsReportConfig
  | 0 => recvConfig pollerInitConfig (inputs 0)
  | n + 1 => recvConfig (configAt inputs n) (inputs (n + 1))

/-- The poller thread's exit as observed by `join` in main. -/
inductive ThreadExit
  | finished
  | panicked
deriving DecidableEq, Repr

/-- Embeds the tail of `main` (main.rs line 211): the join result is bound
to `_res` and discarded, and `main` then returns normally, so the process
exit status is 0 whatever the poller thread's fate. -/
def mainExitCode (r : ThreadExit) : Nat :=
  match r with
  | ThreadExit.finished => 0
  | ThreadExit.panicked => 0

/-! ## Helper lemmas -/

theorem clampInterval_bounds (v : Nat) :
    60 ≤ clampInterval v ∧ clampInterval v ≤ 3600 := by
  refine ⟨le_max_left _ _, ?_⟩
  exact max_le (by norm_num) (min_le_right _ _)

theorem show_menu_fst (s : ViewMenuState) (newFlags : Categories → Bool)
    (requested : Nat) :
    (show_menu s newFlags requested).1
      = ⟨(if newFlags = s.category_flag then s.category_flag else newFlags),
         (if clampInterval requested = s.polling_interval
          then s.polling_interval else clampInterval requested)⟩ := by
  unfold show_menu
  by_cases h1 : newFlags = s.category_flag <;>
    by_cases h2 : clampInterval requested = s.polling_interval <;>
    simp [h1, h2]

theorem show_menu_snd (s : ViewMenuState) (newFlags : Categories → Bool)
    (requested : Nat) :
    (show_menu s newFlags requested).2
      = if newFlags = s.category_flag ∧ clampInterval requested = s.polling_interval
        then none
        else some
          ⟨deriveSelected
             (if newFlags = s.category_flag then s.category_flag else newFlags),
           (if clampInterval requested = s.polling_interval
            then s.polling_interval else clampInterval requested)⟩ := by
  unfold show_menu
  split_ifs with h1 h2 h3 <;> simp_all

theorem deriveSelected_sublist (flag : Categories → Bool) :
    List.Sublist (deriveSelected flag) renderedToggleLabels :=
  List.Sublist.map catToString (List.filter_sublist allCategories)

theorem deriveSelected_nodup (flag : Categories → Bool) :
    (deriveSelected flag).Nodup :=
  List.Nodup.sublist (deriveSelected_sublist flag) (by decide)

theorem menuIntervalInv (us : Nat → (Categories → Bool) × Nat) (n : Nat) :
    60 ≤ (menuStateAt us n).polling_interval
    ∧ (menuStateAt us n).polling_interval ≤ 3600 := by
  induction n with
  | zero => exact ⟨by norm_num [menuStateAt, viewInitState],
      by norm_num [menuStateAt, viewInitState]⟩
  | succ n ih =>
    have h := show_menu_fst (menuStateAt us n) (us n).1 (us n).2
    simp only [menuStateAt, h]
    split_ifs with hi
    · exact ih
    · exact clampInterval_bounds _

/-! ## Claim theorems -/

/-- Claim C1: whenever a frame of `NewsReports::update` receives an
ArticleBatch it replaces the displayed list wholesale, so after every
frame the displayed list equals exactly the articles of the most recently
received batch (or the initial empty list if none was ever received), and
the displayed list is never a mix of two batches: at every frame it is
entirely one batch's articles, or entirely the initial empty list. -/
theorem view_applies_batch_wholesale (recvs : Nat → Option Articles) (n : Nat) :
    displayedAfter recvs n
      = (Option.map Articles.articles (lastReceived recvs n)).getD []
    ∧ (displayedAfter recvs n = []
       ∨ ∃ a k, k < n ∧ recvs k = some a
           ∧ displayedAfter recvs n = a.articles) := by
  induction n with
  | zero => exact ⟨rfl, Or.inl rfl⟩
  | succ n ih =>
    cases h : recvs n with
    | some a =>
      refine ⟨by simp [displayedAfter, lastReceived, viewFrame, h], ?_⟩
      exact Or.inr ⟨a, n, Nat.lt_succ_self n, h,
        by simp [displayedAfter, viewFrame, h]⟩
    | none =>
      refine ⟨by simpa [displayedAfter, lastReceived, viewFrame, h] using ih.1, ?_⟩
      rcases ih.2 with h0 | ⟨a, k, hk, hr, hd⟩
      · exact Or.inl (by simp [displayedAfter, viewFrame, h, h0])
      · exact Or.inr ⟨a, k, Nat.lt_succ_of_lt hk, hr,
          by simp [displayedAfter, viewFrame, h, hd]⟩

/-- Claim C9: the Poller starts from an empty category set with a 1-second
interval, while the View starts from hardcoded defaults of all 7
categories selected and a 600-second interval. -/
theorem startup_defaults :
    pollerInitConfig.selected_categories = []
    ∧ pollerInitConfig.polling_interval = 1
    ∧ (∀ c, viewInitState.category_flag c = true)
    ∧ viewInitState.polling_interval = 600
    ∧ deriveSelected viewInitState.category_flag = renderedToggleLabels
    ∧ renderedToggleLabels.length = 7 := by
  exact ⟨rfl, rfl, fun c => rfl, rfl, rfl, rfl⟩

/-- Claim C10: every Configuration `show_menu` sends lists its selected
categories as a duplicate-free subsequence of the fixed enum declaration
order Business, Entertainment, General, Health, Science, Sports,
Technology, which is also the order in which the category toggles are
rendered. -/
theorem sent_config_category_order (s : ViewMenuState)
    (newFlags : Categories → Bool) (requested : Nat) (cfg : NewsReportConfig)
    (h : (show_menu s newFlags requested).2 = some cfg) :
    List.Sublist cfg.selected_categories renderedToggleLabels
    ∧ cfg.selected_categories.Nodup
    ∧ renderedToggleLabels
        = ["Business", "Entertainment", "General", "Health", "Science",
           "Sports", "Technology"] := by
  rw [show_menu_snd] at h
  split_ifs at h <;>
    first
      | exact Option.noConfusion h
      | (simp only [Option.some.injEq] at h
         subst h
         exact ⟨deriveSelected_sublist _, deriveSelected_nodup _, rfl⟩)

/-- Witness for sent_config_category_order at a concrete interaction:
deselecting every category from the default state sends the empty
category list. -/
theorem sent_config_category_order_witness :
    List.Sublist (NewsReportConfig.mk [] 600).selected_categories
      renderedToggleLabels
    ∧ (NewsReportConfig.mk [] 600).selected_categories.Nodup
    ∧ renderedToggleLabels
        = ["Business", "Entertainment", "General", "Health", "Science",
           "Sports", "Technology"] :=
  sent_config_category_order viewInitState (fun _ => false) 600 ⟨[], 600⟩
    (by decide)

/-- Claim C5: every Configuration the View sends has a polling interval in
[60, 3600]: the slider clamps to this range, the initial interval is 600,
and so no sent Configuration ever carries an out-of-range interval. -/
theorem sent_interval_clamped (us : Nat → (Categories → Bool) × Nat) (n : Nat)
    (cfg : NewsReportConfig) (h : menuSentAt us n = some cfg) :
    60 ≤ cfg.polling_interval ∧ cfg.polling_interval ≤ 3600 := by
  have hinv := menuIntervalInv us n
  unfold menuSentAt at h
  rw [show_menu_snd] at h
  split_ifs at h <;>
    first
      | exact Option.noConfusion h
      | (simp only [Option.some.injEq] at h
         subst h
         first
           | exact hinv
           | exact clampInterval_bounds _)

/-- Witness for sent_interval_clamped: the very first interaction moving
the slider to 100 sends a Configuration, whose interval is within
bounds. -/
theorem sent_interval_clamped_witness :
    60 ≤ (NewsReportConfig.mk (deriveSelected (fun _ => true)) 100).polling_interval
    ∧ (NewsReportConfig.mk (deriveSelected (fun _ => true)) 100).polling_interval
        ≤ 3600 :=
  sent_interval_clamped (fun _ => (fun _ => true, 100)) 0
    ⟨deriveSelected (fun _ => true), 100⟩ (by decide)

theorem catToString_inj (a b : Categories)
    (h : catToString a = catToString b) : a = b := by
  revert h
  revert b
  revert a
  decide

theorem mem_allCategories (c : Categories) : c ∈ allCategories := by
  revert c
  decide

theorem mem_deriveSelected (flag : Categories → Bool) (d : Categories) :
    catToString d ∈ deriveSelected flag ↔ flag d = true := by
  unfold deriveSelected
  constructor
  · intro hmem
    rcases List.mem_map.mp hmem with ⟨e, he, heq⟩
    rcases List.mem_filter.mp he with ⟨-, hflag⟩
    have he2 : e = d := catToString_inj e d heq
    subst he2
    simpa using hflag
  · intro hflag
    exact List.mem_map.mpr
      ⟨d, List.mem_filter.mpr ⟨mem_allCategories d, by simpa using hflag⟩, rfl⟩

/-- Claim C6: in a settings interaction that changes only the interval,
the sent Configuration keeps the selected-category set of the previously
sent one (the flags being unchanged since that send) and carries the new
interval; and an interaction that changes neither control sends nothing. -/
theorem interval_only_change (s : ViewMenuState) (newFlags : Categories → Bool)
    (requested : Nat) (prev : NewsReportConfig)
    (hflags : newFlags = s.category_flag)
    (hprev : prev.selected_categories = deriveSelected s.category_flag) :
    (clampInterval requested ≠ s.polling_interval →
      (show_menu s newFlags requested).2
        = some ⟨prev.selected_categories, clampInterval requested⟩)
    ∧ (clampInterval requested = s.polling_interval →
      (show_menu s newFlags requested).2 = none) := by
  constructor
  · intro hne
    rw [show_menu_snd, if_neg (fun hc => hne hc.2), if_pos hflags, if_neg hne,
      hprev]
  · intro heq
    rw [show_menu_snd, if_pos ⟨hflags, heq⟩]

/-- Witness for interval_only_change at the startup state: moving the
slider to 100 sends the unchanged default category set with interval 100,
while an interaction leaving both controls alone sends nothing. -/
theorem interval_only_change_witness :
    (show_menu viewInitState viewInitState.category_flag 100).2
      = some ⟨deriveSelected viewInitState.category_flag, 100⟩
    ∧ (show_menu viewInitState viewInitState.category_flag 600).2 = none :=
  ⟨(interval_only_change viewInitState viewInitState.category_flag 100
      ⟨deriveSelected viewInitState.category_flag, 600⟩ rfl rfl).1 (by decide),
   (interval_only_change viewInitState viewInitState.category_flag 600
      ⟨deriveSelected viewInitState.category_flag, 600⟩ rfl rfl).2 (by decide)⟩

/-- Claim C7: toggling exactly one category produces a sent Configuration
whose selected-category set differs from the previously sent one (sent
when the flags were the current ones) by exactly the toggled element:
the element is present after the toggle iff its flag was previously
false, it was present before iff its flag was true, and membership of
every other category is unchanged. -/
theorem toggle_one_category (s : ViewMenuState) (c : Categories)
    (requested : Nat) (prev : NewsReportConfig)
    (hprev : prev.selected_categories = deriveSelected s.category_flag) :
    ∃ cfg,
      (show_menu s (Function.update s.category_flag c (!s.category_flag c))
          requested).2 = some cfg
      ∧ (catToString c ∈ cfg.selected_categories
          ↔ s.category_flag c = false)
      ∧ (catToString c ∈ prev.selected_categories
          ↔ s.category_flag c = true)
      ∧ ∀ d : Categories, d ≠ c →
          (catToString d ∈ cfg.selected_categories
            ↔ catToString d ∈ prev.selected_categories) := by
  have hne : Function.update s.category_flag c (!s.category_flag c)
      ≠ s.category_flag := by
    intro hcontra
    have hc := congrFun hcontra c
    simp [Function.update_same] at hc
  refine ⟨⟨deriveSelected (Function.update s.category_flag c (!s.category_flag c)),
    if clampInterval requested = s.polling_interval
    then s.polling_interval else clampInterval requested⟩, ?_, ?_, ?_, ?_⟩
  · rw [show_menu_snd, if_neg (fun hc => hne hc.1), if_neg hne]
  · rw [mem_deriveSelected]
    simp [Function.update_same]
  · rw [hprev, mem_deriveSelected]
  · intro d hd
    rw [hprev, mem_deriveSelected, mem_deriveSelected,
      Function.update_noteq hd]

/-- Witness for toggle_one_category: from the startup state (all seven
categories selected), toggling Sports removes exactly Sports. -/
theorem toggle_one_category_witness :
    ∃ cfg,
      (show_menu viewInitState
          (Function.update viewInitState.category_flag Categories.Sports
            (!viewInitState.category_flag Categories.Sports)) 600).2 = some cfg
      ∧ (catToString Categories.Sports ∈ cfg.selected_categories
          ↔ viewInitState.category_flag Categories.Sports = false)
      ∧ (catToString Categories.Sports
          ∈ (NewsReportConfig.mk
              (deriveSelected viewInitState.category_flag) 600).selected_categories
          ↔ viewInitState.category_flag Categories.Sports = true)
      ∧ ∀ d : Categories, d ≠ Categories.Sports →
          (catToString d ∈ cfg.selected_categories
            ↔ catToString d
              ∈ (NewsReportConfig.mk
                  (deriveSelected viewInitState.category_flag)
                  600).selected_categories) :=
  toggle_one_category viewInitState Categories.Sports 600
    ⟨deriveSelected viewInitState.category_flag, 600⟩ rfl

theorem catFragment_inj : ∀ a b : Categories,
    ("&category=" ++ catToString a = "&category=" ++ catToString b) ↔ a = b := by
  decide

theorem count_allCategories : ∀ c : Categories, allCategories.count c = 1 := by
  decide

theorem count_selected (flag : Categories → Bool) (c : Categories) :
    ∀ l : List Categories,
      ((l.filter (fun x => flag x)).map
          (fun x => "&category=" ++ catToString x)).count
          ("&category=" ++ catToString c)
        = if flag c then l.count c else 0 := by
  intro l
  induction l with
  | nil => simp
  | cons a t ih =>
    by_cases hfa : flag a
    · rw [List.filter_cons_of_pos (by simpa using hfa), List.map_cons,
        List.count_cons, ih, List.count_cons]
      by_cases hac : a = c
      · subst hac
        simp [hfa]
      · have hfrag : ¬("&category=" ++ catToString c
            = "&category=" ++ catToString a) := by
          intro hcontra
          exact hac ((catFragment_inj c a).mp hcontra).symm
        have hfrag2 : ¬("&category=" ++ catToString a
            = "&category=" ++ catToString c) := by
          intro hcontra
          exact hac ((catFragment_inj a c).mp hcontra)
        simp [hac, hfrag, hfrag2]
    · rw [List.filter_cons_of_neg (by simpa using hfa), ih, List.count_cons]
      by_cases hac : a = c
      · subst hac
        simp [hfa]
      · simp [hac]

/-- Claim C4: for a non-empty selection of categories, the query built by
`get_articles` carries exactly one `&category=` fragment per selected
category, none for an unselected one (hence no duplicates), and the query
address is the fixed endpoint with country code gb, the category
fragments, and the `&apiKey=` credential. -/
theorem get_articles_query (flag : Categories → Bool) (key : String)
    (c : Categories) (_hne : ∃ d, flag d = true) :
    ((categoryQueryFragments (deriveSelected flag)).count
        ("&category=" ++ catToString c) = if flag c then 1 else 0)
    ∧ query_addr (deriveSelected flag) key
        = "https://newsapi.org/v2/top-headlines?country=gb"
            ++ String.join (categoryQueryFragments (deriveSelected flag))
            ++ "&apiKey=" ++ key := by
  refine ⟨?_, rfl⟩
  unfold categoryQueryFragments deriveSelected
  rw [List.map_map]
  have h := count_selected flag c allCategories
  rw [count_allCategories c] at h
  exact h

/-- Witness for get_articles_query: with every category selected, the
Business fragment appears exactly once. -/
theorem get_articles_query_witness :
    ((categoryQueryFragments (deriveSelected (fun _ => true))).count
        ("&category=" ++ catToString Categories.Business)
      = if (fun (_ : Categories) => true) Categories.Business then 1 else 0)
    ∧ query_addr (deriveSelected (fun _ => true)) "testkey"
        = "https://newsapi.org/v2/top-headlines?country=gb"
            ++ String.join (categoryQueryFragments (deriveSelected (fun _ => true)))
            ++ "&apiKey=" ++ "testkey" :=
  get_articles_query (fun _ => true) "testkey" Categories.Business
    ⟨Categories.Business, rfl⟩

theorem pollerCycle_ok (cfg : NewsReportConfig)
    (incoming : Option NewsReportConfig)
    (fetch : List String → Except FetchError Articles) (a : Articles)
    (h : fetch (recvConfig cfg incoming).selected_categories = Except.ok a) :
    pollerCycle cfg incoming fetch
      = (PollerState.running (recvConfig cfg incoming), some a,
         some (recvConfig cfg incoming).polling_interval) := by
  unfold pollerCycle
  rw [h]

/-- Claim C3: while every fetch succeeds, each iteration n of the Poller
loop first replaces its configuration wholesale with the incoming one when
present (configAt, built purely from the input stream and the initial
config, interval included, no merging), then fetches with that
configuration's category list and sends exactly the fetched batch, then
sleeps for that configuration's interval; and the thread is still running
after every iteration - the loop has no terminal state. -/
theorem poller_loop_behaviour (inputs : Nat → Option NewsReportConfig)
    (fetch : List String → Except FetchError Articles)
    (hok : ∀ cats, ∃ a, fetch cats = Except.ok a) (n : Nat) :
    pollerStateAfter inputs fetch (n + 1)
        = PollerState.running (configAt inputs n)
    ∧ pollerSentAt inputs fetch n
        = (fetch (configAt inputs n).selected_categories).toOption
    ∧ pollerSleepAt inputs fetch n
        = some (configAt inputs n).polling_interval := by
  induction n with
  | zero =>
    rcases hok (recvConfig pollerInitConfig (inputs 0)).selected_categories
      with ⟨a, ha⟩
    have hc := pollerCycle_ok pollerInitConfig (inputs 0) fetch a ha
    refine ⟨?_, ?_, ?_⟩
    · simp [pollerStateAfter, hc, configAt]
    · simp [pollerSentAt, pollerStateAfter, hc, configAt, ha, Except.toOption]
    · simp [pollerSleepAt, pollerStateAfter, hc, configAt]
  | succ n ih =>
    rcases hok (recvConfig (configAt inputs n) (inputs (n + 1))).selected_categories
      with ⟨a, ha⟩
    have hc := pollerCycle_ok (configAt inputs n) (inputs (n + 1)) fetch a ha
    refine ⟨?_, ?_, ?_⟩
    · show (match pollerStateAfter inputs fetch (n + 1) with
          | PollerState.dead => PollerState.dead
          | PollerState.running cfg => (pollerCycle cfg (inputs (n + 1)) fetch).1)
          = PollerState.running (configAt inputs (n + 1))
      rw [ih.1]
      show (pollerCycle (configAt inputs n) (inputs (n + 1)) fetch).1
          = PollerState.running (configAt inputs (n + 1))
      rw [hc]
      rfl
    · show (match pollerStateAfter inputs fetch (n + 1) with
          | PollerState.dead => none
          | PollerState.running cfg => (pollerCycle cfg (inputs (n + 1)) fetch).2.1)
          = (fetch (configAt inputs (n + 1)).selected_categories).toOption
      rw [ih.1]
      show (pollerCycle (configAt inputs n) (inputs (n + 1)) fetch).2.1
          = (fetch (recvConfig (configAt inputs n) (inputs (n + 1))).selected_categories).toOption
      rw [hc, ha]
      rfl
    · show (match pollerStateAfter inputs fetch (n + 1) with
          | PollerState.dead => none
          | PollerState.running cfg => (pollerCycle cfg (inputs (n + 1)) fetch).2.2)
          = some (configAt inputs (n + 1)).polling_interval
      rw [ih.1]
      show (pollerCycle (configAt inputs n) (inputs (n + 1)) fetch).2.2
          = some (recvConfig (configAt inputs n) (inputs (n + 1))).polling_interval
      rw [hc]

/-- Witness for poller_loop_behaviour: with no incoming configuration and
a fetch always returning the empty batch, iteration 0 keeps the thread
running on the initial configuration, sends the fetched batch, and sleeps
for its 1-second interval. -/
theorem poller_loop_behaviour_witness :
    pollerStateAfter (fun _ => none)
        (fun _ => Except.ok { articles := [] }) 1
        = PollerState.running (configAt (fun _ => none) 0)
    ∧ pollerSentAt (fun _ => none) (fun _ => Except.ok { articles := [] }) 0
        = (Except.ok { articles := [] } : Except FetchError Articles).toOption
    ∧ pollerSleepAt (fun _ => none) (fun _ => Except.ok { articles := [] }) 0
        = some (configAt (fun _ => none) 0).polling_interval :=
  poller_loop_behaviour (fun _ => none)
    (fun _ => Except.ok { articles := [] })
    (fun _ => ⟨{ articles := [] }, rfl⟩) 0

/-- Counterexample to claim C2: the per-frame receive step of
`NewsReports::update` performs exactly one mpsc `try_recv`, which
dequeues the OLDEST pending batch, not the latest. With three batches
A, B, C pending, the frame displays A (the stale oldest, not the latest
C), leaves B and C queued, and the following frame displays the stale
batch B - so stale batches are queued for display on later frames,
contradicting the claim. -/
theorem stale_batch_counterexample :
    (viewFrameQ []
        [⟨[⟨"A", "http://a"⟩]⟩, ⟨[⟨"B", "http://b"⟩]⟩,
         ⟨[⟨"C", "http://c"⟩]⟩]).1
      = [⟨"A", "http://a"⟩]
    ∧ ([⟨"A", "http://a"⟩] : List Article) ≠ [⟨"C", "http://c"⟩]
    ∧ (viewFrameQ []
        [⟨[⟨"A", "http://a"⟩]⟩, ⟨[⟨"B", "http://b"⟩]⟩,
         ⟨[⟨"C", "http://c"⟩]⟩]).2
      = [⟨[⟨"B", "http://b"⟩]⟩, ⟨[⟨"C", "http://c"⟩]⟩]
    ∧ (viewFrameQ [⟨"A", "http://a"⟩]
        [⟨[⟨"B", "http://b"⟩]⟩, ⟨[⟨"C", "http://c"⟩]⟩]).1
      = [⟨"B", "http://b"⟩] := by
  decide

/-- Claim C2 amended: the per-frame receive step dequeues at most one
pending batch per render tick - the oldest (mpsc FIFO) - replacing the
displayed list wholesale with it and leaving the rest queued for later
frames; pending batches are thus drained one per frame in order, and
after as many frames as there are pending batches (with no new arrivals)
the displayed list equals the newest pending batch and the queue is
empty. -/
theorem view_pending_queue_fifo (d : List Article) (b : Articles)
    (rest : List Articles) (q : List Articles) (h : q ≠ []) :
    viewFrameQ d (b :: rest) = (b.articles, rest)
    ∧ viewFramesN d q q.length = ((q.getLast h).articles, []) := by
  refine ⟨rfl, ?_⟩
  induction q generalizing d with
  | nil => exact absurd rfl h
  | cons b1 t ih =>
    cases t with
    | nil => rfl
    | cons b2 t2 =>
      have h2 : b2 :: t2 ≠ [] := by simp
      have hstep : viewFramesN d (b1 :: b2 :: t2) (b2 :: t2).length.succ
          = viewFramesN b1.articles (b2 :: t2) (b2 :: t2).length := rfl
      rw [List.length_cons, hstep, ih b1.articles h2,
        List.getLast_cons h2]

/-- Witness for view_pending_queue_fifo: with two pending batches the
first frame displays the first batch, and two frames drain the queue
ending on the second batch. -/
theorem view_pending_queue_fifo_witness :
    viewFrameQ [] [⟨[⟨"A", "http://a"⟩]⟩] = ([⟨"A", "http://a"⟩], [])
    ∧ viewFramesN [] [⟨[⟨"A", "http://a"⟩]⟩, ⟨[⟨"B", "http://b"⟩]⟩]
        ([⟨[⟨"A", "http://a"⟩]⟩, ⟨[⟨"B", "http://b"⟩]⟩] : List Articles).length
      = ((([⟨[⟨"A", "http://a"⟩]⟩, ⟨[⟨"B", "http://b"⟩]⟩] :
            List Articles).getLast (by decide)).articles, []) :=
  view_pending_queue_fifo [] ⟨[⟨"A", "http://a"⟩]⟩ []
    [⟨[⟨"A", "http://a"⟩]⟩, ⟨[⟨"B", "http://b"⟩]⟩] (by decide)

/-- Counterexample to claim C8: a failing fetch does panic the Poller
thread (the cycle sends no batch, does not sleep, and the thread dies),
and a missing NEWS_API_KEY fails before any request - but the claimed
process-wide abort does not happen: `main` binds the join result to
`_res` and discards it, so the process exit status is 0 (normal) even
when the poller thread panicked, not an abort. -/
theorem fetch_failure_abort_counterexample :
    pollerCycle pollerInitConfig none
        (fun _ => Except.error FetchError.transport)
      = (PollerState.dead, none, none)
    ∧ mainExitCode ThreadExit.panicked = 0 := by
  decide

/-- Claim C8 amended: any fetch failure (missing NEWS_API_KEY at call
time, transport failure, or decode failure) is fatal to the Poller with
no recovery: the result is force-unwrapped, the failing cycle sends no
batch and does not sleep, and the Poller thread terminates; a missing
credential fails the fetch before any request is made; the main thread
does wait on the Poller via join after the GUI loop ends, but it discards
the join result, so the process exits normally (status 0) rather than
aborting. -/
theorem fetch_failure_fatal (cfg : NewsReportConfig)
    (incoming : Option NewsReportConfig)
    (fetch : List String → Except FetchError Articles) (e : FetchError)
    (h : fetch (recvConfig cfg incoming).selected_categories
      = Except.error e)
    (http : String → Except FetchError String)
    (decodeJson : String → Except FetchError Articles)
    (cats : List String) :
    pollerCycle cfg incoming fetch = (PollerState.dead, none, none)
    ∧ get_articles none http decodeJson cats
        = Except.error FetchError.missingKey
    ∧ mainExitCode ThreadExit.panicked = 0 := by
  refine ⟨?_, rfl, rfl⟩
  unfold pollerCycle
  rw [h]

/-- Witness for fetch_failure_fatal at a concrete failing fetch. -/
theorem fetch_failure_fatal_witness :
    pollerCycle pollerInitConfig none
        (fun _ => Except.error FetchError.decode)
      = (PollerState.dead, none, none)
    ∧ get_articles none (fun _ => Except.ok "")
        (fun _ => Except.ok { articles := [] }) []
        = Except.error FetchError.missingKey
    ∧ mainExitCode ThreadExit.panicked = 0 :=
  fetch_failure_fatal pollerInitConfig none
    (fun _ => Except.error FetchError.decode) FetchError.decode rfl
    (fun _ => Except.ok "") (fun _ => Except.ok { articles := [] }) []

end NewsApp
